import Mathlib

/-!
Shallow embedding of the dropout-risk assessment engine
(`backend/app/ml/risk_assessor.py`, `backend/app/models/exam.py`,
`backend/app/api/v1/endpoints/risk_assessment.py`).

Python floats are modelled as rationals (`ℚ`): every constant in the code
(thresholds, 0.5, 0.8, 0.3, 0.6, 0.7) is exactly representable and every
operation used (comparison, mean of finitely many values, division guarded
by positivity) is exact, so no floating-point rounding is relevant to the
claims.
-/

/-- The three risk levels, source strings "green" / "yellow" / "red". -/
inductive RiskLevel where
  | green
  | yellow
  | red
deriving DecidableEq, Repr, Fintype

/-- `risk_values = {"green": 1, "yellow": 2, "red": 3}` from
`rule_based_assessment`. -/
def risk_values : RiskLevel → Nat
  | .green => 1
  | .yellow => 2
  | .red => 3

/-- The maximum of two risk levels under GREEN < YELLOW < RED
(spec-side order used to state the `overall` invariant). -/
def RiskLevel.maxLevel (a b : RiskLevel) : RiskLevel :=
  if risk_values a ≥ risk_values b then a else b

/-- Risk-threshold fields of `Settings` (`core/config.py`), defaults
75.0 / 60.0 / 60.0 / 40.0. -/
structure Settings where
  ATTENDANCE_SAFE_THRESHOLD : ℚ
  ATTENDANCE_WARNING_THRESHOLD : ℚ
  SCORE_SAFE_THRESHOLD : ℚ
  SCORE_WARNING_THRESHOLD : ℚ
deriving Repr

/-- The global `settings` instance with the defaults of `core/config.py`. -/
def settings : Settings :=
  { ATTENDANCE_SAFE_THRESHOLD := 75
    ATTENDANCE_WARNING_THRESHOLD := 60
    SCORE_SAFE_THRESHOLD := 60
    SCORE_WARNING_THRESHOLD := 40 }

/-- The feature dictionary built by `extract_features`.  Each field models
one key; `Option` mirrors that a key may be absent from the Python dict
(`days_enrolled` is only set when the enrollment date is known), and
`features.get(name, default)` is modelled by `Option.getD`. -/
structure Features where
  attendance_percentage : Option ℚ := none
  total_sessions : Option ℚ := none
  average_score : Option ℚ := none
  score_std : Option ℚ := none
  failed_exams : Option ℚ := none
  total_exams : Option ℚ := none
  overdue_fees_count : Option ℚ := none
  total_fees : Option ℚ := none
  overdue_fees_fraction : Option ℚ := none  -- key "overdue_fees_ratio" in the source
  days_enrolled : Option ℚ := none
deriving Repr

/-- The `risk_levels` dict returned by `rule_based_assessment`, with its
four keys. -/
structure RuleRiskProfile where
  attendance : RiskLevel
  academic : RiskLevel
  financial : RiskLevel
  overall : RiskLevel
deriving DecidableEq, Repr

/-- Lines 140-152 of `rule_based_assessment`: `max_risk` over the three
category values through the `risk_values` table, mapped back to a level. -/
def overall_of (a b c : RiskLevel) : RiskLevel :=
  let max_risk := max (risk_values a) (max (risk_values b) (risk_values c))
  if max_risk = 1 then .green
  else if max_risk = 2 then .yellow
  else .red

/-- `RiskAssessor.rule_based_assessment` (risk_assessor.py 109-154),
parameterised by the settings object it reads. -/
def rule_based_assessment (s : Settings) (features : Features) : RuleRiskProfile :=
  let attendance := features.attendance_percentage.getD 0
  let att :=
    if attendance ≥ s.ATTENDANCE_SAFE_THRESHOLD then RiskLevel.green
    else if attendance ≥ s.ATTENDANCE_WARNING_THRESHOLD then RiskLevel.yellow
    else RiskLevel.red
  let avg_score := features.average_score.getD 0
  let acad :=
    if avg_score ≥ s.SCORE_SAFE_THRESHOLD then RiskLevel.green
    else if avg_score ≥ s.SCORE_WARNING_THRESHOLD then RiskLevel.yellow
    else RiskLevel.red
  let overdue := features.overdue_fees_fraction.getD 0
  let fin :=
    if overdue = 0 then RiskLevel.green
    else if overdue ≤ 3/10 then RiskLevel.yellow
    else RiskLevel.red
  { attendance := att, academic := acad, financial := fin
    overall := overall_of att acad fin }

/-- C1: For every feature vector, the RuleRiskProfile returned by the
rule-based classifier has `overall` equal to the maximum of its attendance,
academic and financial levels under the order GREEN < YELLOW < RED. -/
theorem rule_overall_is_max (s : Settings) (features : Features) :
    (rule_based_assessment s features).overall =
      RiskLevel.maxLevel (rule_based_assessment s features).attendance
        (RiskLevel.maxLevel (rule_based_assessment s features).academic
          (rule_based_assessment s features).financial) := by
  have key : ∀ a b c : RiskLevel,
      overall_of a b c = RiskLevel.maxLevel a (RiskLevel.maxLevel b c) := by
    decide
  simp only [rule_based_assessment]
  apply key

/-- A loaded model as `ml_prediction` sees it.  `predict_proba` is `some f`
when the object has that attribute (`hasattr(model, "predict_proba")`),
where `f` returns row 0 of the 2-D probability output; `predict` returns
the first entry of the raw prediction cast to float.  A raised exception is
modelled by `Except.error`. -/
structure Model where
  predict_proba : Option (List ℚ → Except String (List ℚ))
  predict : List ℚ → Except String ℚ

/-- Lines 193-198 of `ml_prediction`: this model's dropout score
(`proba[1] if len(proba) > 1 else proba[0]`, or the raw prediction),
propagating any exception, including the IndexError of `proba[0]` on an
empty row. -/
def modelScore (m : Model) (x : List ℚ) : Except String ℚ :=
  match m.predict_proba with
  | some f =>
      match f x with
      | .error e => .error e
      | .ok proba =>
          if proba.length > 1 then
            match proba.get? 1 with
            | some p => .ok p
            | none => .error "IndexError"
          else
            match proba.get? 0 with
            | some p => .ok p
            | none => .error "IndexError"
  | none => m.predict x

/-- Lines 191-203 of `ml_prediction`: the (score, confidence) pair recorded
for one model — its own score with the default confidence 0.8 on success,
and (0.5, 0.0) when anything it did raised. -/
def perModelEntry (x : List ℚ) (m : Model) : ℚ × ℚ :=
  match modelScore m x with
  | .ok s => (s, 8/10)
  | .error _ => (1/2, 0)

/-- Lines 162-179: the ordered numeric feature vector, with
`features.get(name, 0)` defaulting for absent entries. -/
def feature_vector (features : Features) : List ℚ :=
  [features.attendance_percentage.getD 0, features.average_score.getD 0,
   features.score_std.getD 0, features.failed_exams.getD 0,
   features.overdue_fees_fraction.getD 0, features.days_enrolled.getD 0]

/-- Lines 182-185: `scaler.transform` inside try/except, falling back to
the unscaled vector when scaling raises. -/
def scaled_vector (scaler : List ℚ → Except String (List ℚ))
    (features : Features) : List ℚ :=
  match scaler (feature_vector features) with
  | .ok y => y
  | .error _ => feature_vector features

/-- `np.mean` over a list of values. -/
def npMean (xs : List ℚ) : ℚ := xs.sum / xs.length

/-- The dict returned by `ml_prediction`.  `model_predictions` is `none`
for the zero-model early return, which omits that key. -/
structure MLPrediction where
  dropout_probability : ℚ
  confidence : ℚ
  model_predictions : Option (List (String × ℚ))
deriving DecidableEq, Repr

/-- `RiskAssessor.ml_prediction` (risk_assessor.py 156-217), parameterised
by the loaded model mapping and the scaler. -/
def ml_prediction (models : List (String × Model))
    (scaler : List ℚ → Except String (List ℚ)) (features : Features) :
    MLPrediction :=
  if models.isEmpty then
    { dropout_probability := 1/2, confidence := 0, model_predictions := none }
  else
    let x := scaled_vector scaler features
    let entries := models.map fun p => (p.1, perModelEntry x p.2)
    let predictions := entries.map fun e => (e.1, e.2.1)
    let confidences := entries.map fun e => e.2.2
    if predictions.isEmpty then
      { dropout_probability := 1/2, confidence := 0
        model_predictions := some predictions }
    else
      { dropout_probability := npMean (predictions.map fun e => e.2)
        confidence := npMean confidences
        model_predictions := some predictions }

/-- C2: For every input feature vector (and any scaler), if the ensemble
predictor holds zero loaded models, `ml_prediction` returns
dropout_probability = 0.5 and confidence = 0.0 without raising an error
(the zero-model return also omits the per-model prediction map). -/
theorem ml_prediction_no_models_neutral
    (scaler : List ℚ → Except String (List ℚ)) (features : Features) :
    ml_prediction [] scaler features =
      { dropout_probability := 1/2, confidence := 0, model_predictions := none } :=
  rfl

theorem list_sum_nonneg_of_unit (xs : List ℚ) (h : ∀ y ∈ xs, 0 ≤ y) :
    0 ≤ xs.sum := by
  induction xs with
  | nil => simp
  | cons a t ih =>
      simp only [List.sum_cons]
      have ha : 0 ≤ a := h a (by simp)
      have ht : 0 ≤ t.sum := ih fun y hy => h y (by simp [hy])
      linarith

theorem list_sum_le_length_of_unit (xs : List ℚ) (h : ∀ y ∈ xs, y ≤ 1) :
    xs.sum ≤ (xs.length : ℚ) := by
  induction xs with
  | nil => simp
  | cons a t ih =>
      simp only [List.sum_cons, List.length_cons]
      have ha : a ≤ 1 := h a (by simp)
      have ht : t.sum ≤ (t.length : ℚ) := ih fun y hy => h y (by simp [hy])
      push_cast
      linarith

theorem npMean_mem_unit (xs : List ℚ) (hne : xs ≠ [])
    (h : ∀ y ∈ xs, 0 ≤ y ∧ y ≤ 1) : 0 ≤ npMean xs ∧ npMean xs ≤ 1 := by
  have hlen : (0 : ℚ) < xs.length := by
    have := List.length_pos.mpr hne
    exact_mod_cast this
  have hsum0 : 0 ≤ xs.sum := list_sum_nonneg_of_unit xs fun y hy => (h y hy).1
  have hsum1 : xs.sum ≤ (xs.length : ℚ) :=
    list_sum_le_length_of_unit xs fun y hy => (h y hy).2
  constructor
  · exact div_nonneg hsum0 (le_of_lt hlen)
  · exact (div_le_one hlen).mpr hsum1

theorem perModelEntry_score_mem_unit (x : List ℚ) (m : Model)
    (h : ∀ s, modelScore m x = Except.ok s → 0 ≤ s ∧ s ≤ 1) :
    0 ≤ (perModelEntry x m).1 ∧ (perModelEntry x m).1 ≤ 1 := by
  unfold perModelEntry
  cases hs : modelScore m x with
  | ok s => simpa using h s hs
  | error e => norm_num

/-- C3: For every feature input and every set of loaded models — each of
which, when its own inference succeeds, yields a score within [0,1], as the
probability outputs of the loaded classifiers do — and any scaler, the
ensemble's dropout_probability lies within [0,1]; in particular it does
when every model fails. -/
theorem ml_dropout_probability_mem_unit
    (models : List (String × Model)) (scaler : List ℚ → Except String (List ℚ))
    (features : Features)
    (h : ∀ p ∈ models, ∀ x s, modelScore p.2 x = Except.ok s → 0 ≤ s ∧ s ≤ 1) :
    0 ≤ (ml_prediction models scaler features).dropout_probability ∧
      (ml_prediction models scaler features).dropout_probability ≤ 1 := by
  cases models with
  | nil => exact ⟨by norm_num [ml_prediction], by norm_num [ml_prediction]⟩
  | cons q rest =>
      have hmain :
          (ml_prediction (q :: rest) scaler features).dropout_probability =
            npMean ((q :: rest).map fun p =>
              (perModelEntry (scaled_vector scaler features) p.2).1) := by
        simp [ml_prediction, List.map_map, Function.comp_def]
      rw [hmain]
      apply npMean_mem_unit
      · simp
      · intro y hy
        simp only [List.mem_map] at hy
        obtain ⟨p, hp, rfl⟩ := hy
        exact perModelEntry_score_mem_unit _ _ fun s hs => h p hp _ s hs

/-- A model whose probability interface always returns the row
[0.3, 0.7] (dropout-class probability 0.7). -/
def proba_model : Model :=
  { predict_proba := some fun _ => Except.ok [3/10, 7/10]
    predict := fun _ => Except.error "not used" }

/-- A model that raises on every interface. -/
def failing_model : Model :=
  { predict_proba := some fun _ => Except.error "inference failed"
    predict := fun _ => Except.error "inference failed" }

/-- A scaler whose transform succeeds and returns its input unchanged. -/
def identity_scaler : List ℚ → Except String (List ℚ) := fun v => Except.ok v

/-- C3 witness: the bound evaluated on a concrete ensemble of one
succeeding and one failing model. -/
theorem ml_dropout_probability_mem_unit_app :
    0 ≤ (ml_prediction [("logistic", proba_model), ("random_forest", failing_model)]
          identity_scaler {}).dropout_probability ∧
      (ml_prediction [("logistic", proba_model), ("random_forest", failing_model)]
          identity_scaler {}).dropout_probability ≤ 1 := by
  apply ml_dropout_probability_mem_unit
  intro p hp x s hs
  simp only [List.mem_cons, List.not_mem_nil, or_false] at hp
  rcases hp with h1 | h2
  · subst h1
    simp [modelScore, proba_model] at hs
    subst hs
    norm_num
  · subst h2
    simp [modelScore, failing_model] at hs

/-- C5: For every set of loaded models and every feature input, if one
model raises during inference, the ensemble records score 0.5 and
confidence 0.0 for that model only, the other models' entries are each
computed from that model alone (so they are unaffected by the failure),
and the ensemble prediction completes without raising: `ml_prediction` is
total and returns the stated per-model prediction list. -/
theorem ml_model_failure_isolated
    (pre post : List (String × Model)) (n : String) (m : Model)
    (scaler : List ℚ → Except String (List ℚ)) (features : Features) (e : String)
    (hm : modelScore m (scaled_vector scaler features) = Except.error e) :
    perModelEntry (scaled_vector scaler features) m = (1/2, 0) ∧
      (ml_prediction (pre ++ (n, m) :: post) scaler features).model_predictions =
        some ((pre.map fun p =>
            (p.1, (perModelEntry (scaled_vector scaler features) p.2).1)) ++
          (n, 1/2) ::
          (post.map fun p =>
            (p.1, (perModelEntry (scaled_vector scaler features) p.2).1))) := by
  have hentry : perModelEntry (scaled_vector scaler features) m = (1/2, 0) := by
    unfold perModelEntry
    rw [hm]
  refine ⟨hentry, ?_⟩
  have hne : (pre ++ (n, m) :: post).isEmpty = false := by
    cases pre <;> simp
  simp [ml_prediction, hne, List.map_map, Function.comp_def, hentry]

/-- C5 witness: a two-model ensemble where the second model raises —
evaluated concretely, the failing model's entry is (0.5, 0.0) and the
succeeding model's recorded score is its own 0.7. -/
theorem ml_model_failure_isolated_app :
    perModelEntry (scaled_vector identity_scaler {}) failing_model = (1/2, 0) ∧
      (ml_prediction [("logistic", proba_model), ("random_forest", failing_model)]
          identity_scaler {}).model_predictions =
        some [("logistic", 7/10), ("random_forest", 1/2)] := by
  have h := ml_model_failure_isolated [("logistic", proba_model)] [] "random_forest"
    failing_model identity_scaler {} "inference failed" rfl
  simpa [perModelEntry, modelScore, proba_model] using h


/-- `RiskAssessor.generate_recommendations` (risk_assessor.py 258-312).
Each trigger block appends its strings in source order; the result is the
five blocks concatenated in the order the code appends them.  The source
reads `ml_results.get("dropout_probability", 0.5)`; the key is always
present on the structure here, so the access is the field itself. -/
def generate_recommendations (features : Features)
    (risk_levels : RuleRiskProfile) (ml_results : MLPrediction) : List String :=
  let attBlock :=
    if risk_levels.attendance = RiskLevel.yellow ∨
        risk_levels.attendance = RiskLevel.red then
      let attendance := features.attendance_percentage.getD 0
      (if attendance < 60 then ["Immediate intervention required for attendance"]
       else if attendance < 75 then
         ["Schedule meeting with student and parents about attendance"]
       else []) ++
      ["Implement attendance tracking and early warning system"]
    else []
  let acadBlock :=
    if risk_levels.academic = RiskLevel.yellow ∨
        risk_levels.academic = RiskLevel.red then
      let avg_score := features.average_score.getD 0
      (if avg_score < 40 then ["Urgent academic support needed"]
       else if avg_score < 60 then ["Schedule extra classes and academic counseling"]
       else []) ++
      ["Assign peer mentor for academic support"]
    else []
  let finBlock :=
    if risk_levels.financial = RiskLevel.yellow ∨
        risk_levels.financial = RiskLevel.red then
      let overdue := features.overdue_fees_fraction.getD 0
      (if overdue > 1/2 then ["Immediate financial counseling required"]
       else if overdue > 1/5 then ["Schedule fee payment discussion"]
       else []) ++
      ["Explore financial aid and payment plan options"]
    else []
  let dropout_prob := ml_results.dropout_probability
  let mlBlock :=
    if dropout_prob > 7/10 then
      ["High dropout risk - implement comprehensive intervention plan"]
    else if dropout_prob > 1/2 then
      ["Moderate dropout risk - monitor closely and provide support"]
    else []
  let overallBlock :=
    if risk_levels.overall = RiskLevel.red then
      ["Schedule comprehensive counseling session",
       "Involve parents/guardians in intervention plan",
       "Weekly progress monitoring required"]
    else []
  attBlock ++ acadBlock ++ finBlock ++ mlBlock ++ overallBlock

/-- Lines 230-237 of `assess_student_risk`: the risk level derived from
the ensemble's dropout probability. -/
def ml_risk_level_of (dropout_prob : ℚ) : RiskLevel :=
  if dropout_prob < 3/10 then .green
  else if dropout_prob < 6/10 then .yellow
  else .red

/-- The assessment dict built by `assess_student_risk` (lines 219-256),
restricted to the fields derived from the extracted features (student id
and current date are copied into the dict unchanged). -/
structure AssessmentResult where
  features : Features
  rule_based_risk : RuleRiskProfile
  ml_results : MLPrediction
  ml_risk_level : RiskLevel
  recommendations : List String
  overall_risk : RiskLevel
deriving Repr

/-- `RiskAssessor.assess_student_risk` (risk_assessor.py 219-256) after
feature extraction, parameterised by settings, loaded models and
scaler. -/
def assess_student_risk (s : Settings) (models : List (String × Model))
    (scaler : List ℚ → Except String (List ℚ)) (features : Features) :
    AssessmentResult :=
  let risk_levels := rule_based_assessment s features
  let ml_results := ml_prediction models scaler features
  { features := features
    rule_based_risk := risk_levels
    ml_results := ml_results
    ml_risk_level := ml_risk_level_of ml_results.dropout_probability
    recommendations := generate_recommendations features risk_levels ml_results
    overall_risk := risk_levels.overall }

/-- Scenario A features: attendance 80%, average score 70, overdue-fee
ratio 0 (the "overdue_fees_ratio" key). -/
def scenarioA_features : Features :=
  { attendance_percentage := some 80
    average_score := some 70
    overdue_fees_fraction := some 0 }

/-- C4 counterexample: at Scenario A with a no-model (neutral) predictor
the recommendation list is not the claimed singleton — the moderate-risk
trigger requires dropout_probability strictly greater than 0.5, so at
exactly 0.5 no recommendation fires. -/
theorem scenarioA_recommendations_not_singleton :
    (assess_student_risk settings [] identity_scaler
        scenarioA_features).recommendations ≠
      ["Moderate dropout risk - monitor closely and provide support"] := by
  norm_num [assess_student_risk, generate_recommendations, rule_based_assessment,
    ml_prediction, scenarioA_features, settings, overall_of, risk_values] <;>
  try simp

/-- C4 (amended): at Scenario A with a no-model (neutral) predictor the
rule profile is all GREEN, dropout_probability is 0.5 and ml_risk_level is
YELLOW, but the recommendation list is empty: no trigger fires, because
the moderate-dropout-risk recommendation requires dropout_probability
strictly above 0.5. -/
theorem scenarioA_assessment_eval :
    (assess_student_risk settings [] identity_scaler
        scenarioA_features).rule_based_risk =
        { attendance := .green, academic := .green, financial := .green
          overall := .green } ∧
      (assess_student_risk settings [] identity_scaler
          scenarioA_features).ml_results.dropout_probability = 1/2 ∧
      (assess_student_risk settings [] identity_scaler
          scenarioA_features).ml_risk_level = .yellow ∧
      (assess_student_risk settings [] identity_scaler
          scenarioA_features).recommendations = [] := by
  refine ⟨?_, rfl, ?_, ?_⟩ <;>
    norm_num [assess_student_risk, generate_recommendations,
      rule_based_assessment, ml_prediction, ml_risk_level_of,
      scenarioA_features, settings, overall_of, risk_values] <;>
    try simp

/-- Scenario B features: attendance 50%, no exam records (average score
defaults to 0), overdue-fee ratio 0.6. -/
def scenarioB_features : Features :=
  { attendance_percentage := some 50
    average_score := some 0
    overdue_fees_fraction := some (3/5) }

/-- The nine Scenario-B recommendation strings in the relative order the
claim lists them: the three urgent category lines, then the three
overall-RED additions, then the three always-appended category
reminders. -/
def scenarioB_claimed_order : List String :=
  ["Immediate intervention required for attendance",
   "Urgent academic support needed",
   "Immediate financial counseling required",
   "Schedule comprehensive counseling session",
   "Involve parents/guardians in intervention plan",
   "Weekly progress monitoring required",
   "Implement attendance tracking and early warning system",
   "Assign peer mentor for academic support",
   "Explore financial aid and payment plan options"]

/-- C8 counterexample: the Scenario-B recommendations do not contain the
nine strings in the claimed relative order — each category's
always-appended reminder follows that category's urgent line immediately,
before the overall-RED additions, so the claimed order (reminders last) is
not a subsequence of the actual list. -/
theorem scenarioB_claimed_order_fails :
    ¬ scenarioB_claimed_order.Sublist
        (assess_student_risk settings [] identity_scaler
          scenarioB_features).recommendations := by
  have heval : (assess_student_risk settings [] identity_scaler
      scenarioB_features).recommendations =
      ["Immediate intervention required for attendance",
       "Implement attendance tracking and early warning system",
       "Urgent academic support needed",
       "Assign peer mentor for academic support",
       "Immediate financial counseling required",
       "Explore financial aid and payment plan options",
       "Schedule comprehensive counseling session",
       "Involve parents/guardians in intervention plan",
       "Weekly progress monitoring required"] := by
    norm_num [assess_student_risk, generate_recommendations,
      rule_based_assessment, ml_prediction, scenarioB_features, settings,
      overall_of, risk_values] <;> try simp
  rw [heval]
  decide

/-- C8 (amended): at Scenario B all three category levels and overall are
RED, and the recommendations are exactly the nine claimed strings — but
ordered per category: each category's urgent line immediately followed by
that category's always-appended reminder (attendance, academic, financial),
with the three overall-RED additions last. -/
theorem scenarioB_recommendations_eval :
    (assess_student_risk settings [] identity_scaler
        scenarioB_features).rule_based_risk =
        { attendance := .red, academic := .red, financial := .red
          overall := .red } ∧
      (assess_student_risk settings [] identity_scaler
          scenarioB_features).recommendations =
        ["Immediate intervention required for attendance",
         "Implement attendance tracking and early warning system",
         "Urgent academic support needed",
         "Assign peer mentor for academic support",
         "Immediate financial counseling required",
         "Explore financial aid and payment plan options",
         "Schedule comprehensive counseling session",
         "Involve parents/guardians in intervention plan",
         "Weekly progress monitoring required"] := by
  constructor <;>
    norm_num [assess_student_risk, generate_recommendations,
      rule_based_assessment, ml_prediction, scenarioB_features, settings,
      overall_of, risk_values] <;> try simp

/-- The per-student loop of the batch endpoint `assess_all_students_risk`
(risk_assessment.py 195-247).  For each active student: inside the
try-block, skip the student when an assessment already exists for today
(`continue` at line 208); otherwise run the assessment and stage the
record; any exception is caught, logged for that student, and the loop
continues.  Returns the staged records and the logged failing student
ids, both in loop order.  `has_assessment_today` stands for the
existing-assessment query and `assess_student` for
`risk_assessor.assess_student_risk` plus record construction, which may
raise (modelled by `Except.error`). -/
def assess_all_students_risk {α : Type} (has_assessment_today : Nat → Bool)
    (assess_student : Nat → Except String α) :
    List Nat → List α × List Nat
  | [] => ([], [])
  | sid :: rest =>
      let tail := assess_all_students_risk has_assessment_today assess_student rest
      if has_assessment_today sid then tail
      else
        match assess_student sid with
        | .ok r => (r :: tail.1, tail.2)
        | .error _ => (tail.1, sid :: tail.2)

theorem assess_all_students_risk_all_ok {α : Type}
    (assess_student : Nat → Except String α) (l : List Nat)
    (hok : ∀ sid ∈ l, ∃ r, assess_student sid = Except.ok r) :
    assess_all_students_risk (fun _ => false) assess_student l =
      ((l.filterMap fun sid => (assess_student sid).toOption), []) := by
  induction l with
  | nil => rfl
  | cons a rest ih =>
      obtain ⟨r, hr⟩ := hok a (by simp)
      have ht := ih fun sid hsid => hok sid (by simp [hsid])
      simp [assess_all_students_risk, ht, hr, List.filterMap_cons, Except.toOption]

theorem filterMap_toOption_length {α : Type}
    (assess_student : Nat → Except String α) (l : List Nat)
    (hok : ∀ sid ∈ l, ∃ r, assess_student sid = Except.ok r) :
    (l.filterMap fun sid => (assess_student sid).toOption).length = l.length := by
  induction l with
  | nil => rfl
  | cons a rest ih =>
      obtain ⟨r, hr⟩ := hok a (by simp)
      have ht := ih fun sid hsid => hok sid (by simp [hsid])
      have hstep :
          List.filterMap (fun sid => (assess_student sid).toOption) (a :: rest) =
            r :: List.filterMap (fun sid => (assess_student sid).toOption) rest := by
        simp [List.filterMap_cons, hr, Except.toOption]
      rw [hstep]
      simp [ht]

/-- C6: for a batch in which exactly one student's assessment raises (and
no student has an assessment for today already), the loop stages a record
for every other student — the staged list is the per-student results of
the non-failing students in order, with one record per such student —
logs exactly the failing student, and completes without raising (it is a
total function returning the stated pair). -/
theorem assess_all_one_failure_isolated {α : Type}
    (assess_student : Nat → Except String α)
    (pre post : List Nat) (bad : Nat) (e : String)
    (hbad : assess_student bad = Except.error e)
    (hok : ∀ sid ∈ pre ++ post, ∃ r, assess_student sid = Except.ok r) :
    assess_all_students_risk (fun _ => false) assess_student
        (pre ++ bad :: post) =
      (((pre ++ post).filterMap fun sid => (assess_student sid).toOption),
        [bad]) ∧
      ((pre ++ post).filterMap fun sid =>
          (assess_student sid).toOption).length = pre.length + post.length := by
  have hlen := filterMap_toOption_length assess_student (pre ++ post) hok
  rw [List.length_append] at hlen
  refine ⟨?_, hlen⟩
  induction pre with
  | nil =>
      have hpost := assess_all_students_risk_all_ok assess_student post
        fun sid hsid => hok sid (by simp [hsid])
      simp [assess_all_students_risk, hbad, hpost]
  | cons a rest ih =>
      obtain ⟨r, hr⟩ := hok a (by simp)
      have ht := ih (fun sid hsid => hok sid (by
        simp only [List.cons_append, List.mem_cons, List.mem_append] at hsid ⊢
        tauto)) (by
        have := filterMap_toOption_length assess_student (rest ++ post)
          fun sid hsid => hok sid (by
            simp only [List.cons_append, List.mem_cons, List.mem_append] at hsid ⊢
            tauto)
        rw [List.length_append] at this
        exact this)
      simp [assess_all_students_risk, hr, ht, List.filterMap_cons, Except.toOption]

/-- C6 witness: a concrete three-student batch whose middle student's
assessment raises. -/
theorem assess_all_one_failure_isolated_app :
    assess_all_students_risk (fun _ => false)
        (fun sid => if sid = 2 then Except.error "malformed history"
          else Except.ok sid) [1, 2, 3] =
      ([1, 3], [2]) := by
  have h := assess_all_one_failure_isolated
    (fun sid => if sid = 2 then Except.error "malformed history"
      else Except.ok sid)
    [1] [3] 2 "malformed history" rfl
    (by
      intro sid hsid
      simp only [List.mem_append, List.mem_singleton] at hsid
      rcases hsid with h1 | h3
      · exact ⟨1, by simp [h1]⟩
      · exact ⟨3, by simp [h3]⟩)
  have h1 := h.1
  simpa [Except.toOption] using h1

/-- C7 counterexample: a student who already has an assessment for the
current date is skipped by the batch loop itself — assessing the student
would succeed, yet no record is staged — so the orchestrator does perform
per-date deduplication. -/
theorem assess_all_dedupes_existing_today :
    assess_all_students_risk (fun _ => true)
        (fun sid => Except.ok sid) [1] = ([], []) := rfl

/-- C7 (amended): the batch loop deduplicates by date itself: a student
that already has an assessment for the current date is skipped —
contributing neither a staged record nor a logged failure — exactly as if
absent from the batch; the remaining students are processed unchanged. -/
theorem assess_all_skips_existing {α : Type} (has_assessment_today : Nat → Bool)
    (assess_student : Nat → Except String α) (pre post : List Nat) (sid : Nat)
    (h : has_assessment_today sid = true) :
    assess_all_students_risk has_assessment_today assess_student
        (pre ++ sid :: post) =
      assess_all_students_risk has_assessment_today assess_student
        (pre ++ post) := by
  induction pre with
  | nil => simp [assess_all_students_risk, h]
  | cons a rest ih => simp [assess_all_students_risk, ih]

/-- C7 amended witness: with student 2 already assessed today, a batch
[1, 2, 3] yields the same staging as [1, 3]. -/
theorem assess_all_skips_existing_app :
    assess_all_students_risk (fun s => decide (s = 2))
        (fun sid => Except.ok sid) [1, 2, 3] =
      assess_all_students_risk (fun s => decide (s = 2))
        (fun sid => Except.ok sid) [1, 3] :=
  assess_all_skips_existing (fun s => decide (s = 2))
    (fun sid => Except.ok sid) [1] [3] 2 rfl

/-- Outcome of the sklearn fitting pipeline on a non-empty dataset
(risk_assessor.py 320-342: split, scaler fit, the two model fits and the
two held-out accuracies).  The fitting itself is external library code,
so it enters the embedding as a parameter applied in the non-empty
branch only. -/
structure FitOutcome where
  logistic : Model
  random_forest : Model
  fitted_scaler : List ℚ → Except String (List ℚ)
  logistic_accuracy : ℚ
  random_forest_accuracy : ℚ

/-- The mutable state `train_models` and `save_models` can touch: the
in-memory model mapping and scaler, and the artifacts persisted on disk
(`{name}.joblib` per model plus `scaler.joblib`). -/
structure TrainState where
  models : List (String × Model)
  scaler : List ℚ → Except String (List ℚ)
  disk_models : List (String × Model)
  disk_scaler : Option (List ℚ → Except String (List ℚ))

/-- Python dict assignment `d[name] = m`: replace the entry if the key
exists, else append it. -/
def setModel (models : List (String × Model)) (name : String) (m : Model) :
    List (String × Model) :=
  if models.any fun p => p.1 = name then
    models.map fun p => if p.1 = name then (name, m) else p
  else models ++ [(name, m)]

/-- `RiskAssessor.train_models` (risk_assessor.py 314-355) as a state
transformer.  `if training_data.empty:` logs and returns before touching
anything; otherwise the fitting outcome replaces the stored models and
scaler and `save_models` (lines 40-45) persists every in-memory model and
the scaler.  The second component is the returned accuracy report —
`none` on the empty early return, which trains zero models. -/
def train_models {ρ : Type} (fit : List ρ → FitOutcome) (st : TrainState)
    (training_data : List ρ) : TrainState × Option (ℚ × ℚ) :=
  if training_data.isEmpty then (st, none)
  else
    let outcome := fit training_data
    let models1 := setModel st.models "logistic" outcome.logistic
    let models2 := setModel models1 "random_forest" outcome.random_forest
    ({ models := models2
       scaler := outcome.fitted_scaler
       disk_models := models2.foldl (fun d p => setModel d p.1 p.2) st.disk_models
       disk_scaler := some outcome.fitted_scaler },
     some (outcome.logistic_accuracy, outcome.random_forest_accuracy))

/-- C9: training invoked with an empty dataset returns without fitting
anything — the in-memory model set and scaler and all previously
persisted artifacts are unchanged (the returned state is the input state)
— and no accuracy report is produced: zero models trained. -/
theorem train_models_empty_noop {ρ : Type} (fit : List ρ → FitOutcome)
    (st : TrainState) :
    train_models fit st ([] : List ρ) = (st, none) :=
  rfl

/-- The columns of `Exam` (models/exam.py 26-37) that `percentage`
reads. -/
structure Exam where
  total_marks : ℚ
  passing_marks : ℚ
deriving Repr

/-- `ExamScore` (models/exam.py 50-65): `exam` is the relationship to the
linked exam row, `none` when that row is missing. -/
structure ExamScore where
  marks_obtained : ℚ
  exam : Option Exam
deriving Repr

/-- `ExamScore.percentage` (models/exam.py 67-71):
`if self.exam and self.exam.total_marks > 0`, else 0. -/
def ExamScore.percentage (s : ExamScore) : ℚ :=
  match s.exam with
  | some e => if e.total_marks > 0 then s.marks_obtained / e.total_marks * 100 else 0
  | none => 0

/-- The academic-average computation of `extract_features`
(risk_assessor.py 74-81): the mean of the per-score percentages when any
exam scores exist, else 0.0. -/
def average_score_of (exam_scores : List ExamScore) : ℚ :=
  if exam_scores.isEmpty then 0
  else npMean (exam_scores.map ExamScore.percentage)

/-- C10: the percentage derivation is total: when the linked exam is
missing or its total_marks is not greater than 0, `percentage` evaluates
to 0 rather than dividing, and the average-score extraction on any
non-empty collection containing such a score still evaluates to the mean
of the percentages — no division by zero occurs. -/
theorem percentage_total_degenerate_zero (s : ExamScore)
    (scores : List ExamScore)
    (h : s.exam = none ∨ ∃ e, s.exam = some e ∧ e.total_marks ≤ 0)
    (hmem : s ∈ scores) :
    ExamScore.percentage s = 0 ∧
      average_score_of scores =
        (scores.map ExamScore.percentage).sum / (scores.length : ℚ) := by
  constructor
  · rcases h with hnone | ⟨e, hsome, hle⟩
    · simp [ExamScore.percentage, hnone]
    · simp [ExamScore.percentage, hsome, not_lt.mpr hle]
  · have hne : scores ≠ [] := List.ne_nil_of_mem hmem
    have : scores.isEmpty = false := by
      cases scores with
      | nil => exact absurd rfl hne
      | cons a t => rfl
    simp [average_score_of, this, npMean]

/-- C10 witness: a score of 50 marks linked to an exam with total_marks 0
has percentage 0, and the average over the one-element collection
containing it evaluates to the mean. -/
theorem percentage_total_degenerate_zero_app :
    ExamScore.percentage ⟨50, some ⟨0, 40⟩⟩ = 0 ∧
      average_score_of [⟨50, some ⟨0, 40⟩⟩] =
        (([⟨50, some ⟨0, 40⟩⟩] : List ExamScore).map ExamScore.percentage).sum /
          ((([⟨50, some ⟨0, 40⟩⟩] : List ExamScore).length : ℕ) : ℚ) :=
  percentage_total_degenerate_zero ⟨50, some ⟨0, 40⟩⟩ [⟨50, some ⟨0, 40⟩⟩]
    (Or.inr ⟨⟨0, 40⟩, rfl, le_refl 0⟩) (by simp)
